import Mathlib

/-!
Verification of the tool-orchestration core of the `ragchatbot` repository.

The orchestrator (`AIGenerator.generate_response` and
`AIGenerator._execute_tool_rounds` in `backend/ai_generator.py`) is embedded
shallowly: the Anthropic completion client is an oracle function from the
list of API calls made so far to a response (or a transport error), the tool
manager is a function from tool name and keyword arguments to a result
string or a raised-exception message, and the run additionally returns a
trace recording every API call made, every response received, and every
tool execution attempted, in order.

The retrieval tools (`CourseSearchTool` / `CourseOutlineTool` in
`backend/search_tools.py`) are not part of the sources; they are modelled
from the specification, with the repository test suite as a consistency
check.
-/

namespace RagChatbot

/-- Keyword arguments of a tool invocation, passed through opaquely by the
orchestrator (`**content_block.input`). -/
abbrev ToolInput := List (String × String)

/-- A tool definition is passed through opaquely to the completion service;
only its identity matters to the orchestrator. -/
abbrev ToolDef := String

/-- One content block of a completion response: a text block (has a `text`
attribute) or a tool-use block (`name`, `id`, `input`). -/
inductive ContentBlock where
  | text (t : String)
  | toolUse (name : String) (id : String) (input : ToolInput)
  deriving DecidableEq, Repr

/-- A tool result dict as built by `_execute_tool_rounds`:
`{"type": "tool_result", "tool_use_id": ..., "content": ..., "is_error": ...}`
(the `is_error` key is only present on failures; absence is modelled as
`false`). -/
structure ToolResult where
  tool_use_id : String
  content : String
  is_error : Bool
  deriving DecidableEq, Repr

/-- Message content: the initial user query is a plain string, assistant
messages carry response content blocks, tool feedback carries tool-result
dicts. -/
inductive MsgContent where
  | str (s : String)
  | blocks (bs : List ContentBlock)
  | results (rs : List ToolResult)
  deriving DecidableEq, Repr

/-- A chat message `{"role": ..., "content": ...}`. -/
structure Message where
  role : String
  content : MsgContent
  deriving DecidableEq, Repr

/-- A completion-service response: ordered content blocks plus the stop
signal (`stop_reason`). -/
structure Response where
  content : List ContentBlock
  stop_reason : String
  deriving DecidableEq, Repr

/-- The parameters of one `client.messages.create(**params)` call.
`model`, `temperature` and `maxTokens` come from `self.base_params`;
`tools`/`toolChoiceAuto` are present only when the call site attaches the
`tools` and `tool_choice` keys. -/
structure ApiCall where
  model : String
  temperature : Nat
  maxTokens : Nat
  messages : List Message
  system : String
  tools : Option (List ToolDef)
  toolChoiceAuto : Bool
  deriving DecidableEq, Repr

/-- The completion service: from the calls made so far (the current call
last) to a response, or to a raised transport exception. -/
abbrev Client := List ApiCall → Except String Response

/-- The tool manager's `execute_tool(name, **kwargs)`: a result string, or
a raised exception with message. -/
abbrev ToolExec := String → ToolInput → Except String String

/-- Exceptions that can escape the Python code: a transport exception from
`client.messages.create`, an `IndexError` from `content[0]` on an empty
content list, or an `AttributeError` from `.text` on a non-text block. -/
inductive PyError where
  | transport (msg : String)
  | indexError
  | attributeError
  deriving DecidableEq, Repr

/-- Execution trace of one `generate_response` invocation: API calls made,
responses received, and tool executions attempted, each in order. -/
structure RunState where
  calls : List ApiCall
  resps : List Response
  execs : List (String × ToolInput)
  deriving DecidableEq, Repr

/-- The static system prompt (`AIGenerator.SYSTEM_PROMPT`), verbatim; the
orchestration logic threads it through opaquely. -/
def SYSTEM_PROMPT : String :=
  " You are an AI assistant specialized in course materials and educational content with access to comprehensive search tools for course information.\n\nAvailable Tools:\n1. **search_course_content**: Search for specific course content with optional course/lesson filters\n2. **get_course_outline**: Retrieve course outline showing course name, link, and complete lesson list\n\nTool Usage Guidelines:\n- **Course outline/structure queries**: Use get_course_outline tool\n- **Specific content queries**: Use search_course_content tool\n- **Multi-part questions**: You may use tools up to TWO times per query if needed\n  - Example: \"What is X and Y?\" → Search for X, then search for Y if needed\n  - Example: \"Compare topic A in course X with course Y\" → Search course X, then search course Y\n  - Prioritize efficiency: Use one search if possible\n- **Tool independence**: Each tool call should gather distinct, complementary information\n- Synthesize tool results into accurate, fact-based responses\n- If tool yields no results, state this clearly without offering alternatives\n\nResponse Protocol:\n- **General knowledge questions**: Answer using existing knowledge without tools\n- **Course outline questions** (e.g., \"What lessons are in X?\", \"Show me the course structure\"): Use get_course_outline\n- **Course content questions**: Use search_course_content first, then answer\n- **No meta-commentary**:\n - Provide direct answers only — no reasoning process, tool explanations, or question-type analysis\n - Do not mention \"based on the search results\" or \"using the tool\"\n\nWhen presenting course outlines:\n- Include course name and link\n- List all lessons with their numbers and titles\n- Include lesson links when available\n\nAll responses must be:\n1. **Brief, Concise and focused** - Get to the point quickly\n2. **Educational** - Maintain instructional value\n3. **Clear** - Use accessible language\n4. **Example-supported** - Include relevant examples when they aid understanding\nProvide only the direct answer to what was asked.\n"

/-- The dict `{**self.base_params, "messages": ..., "system": ...}` plus optionally
`"tools"`/`"tool_choice": {"type": "auto"}`: every call site fixes
`temperature = 0` and `max_tokens = 800` and sets `tool_choice` auto exactly
when it sets `tools`. -/
def mkCall (model sys : String) (msgs : List Message) (tools : Option (List ToolDef)) : ApiCall :=
  { model := model, temperature := 0, maxTokens := 800, messages := msgs,
    system := sys, tools := tools, toolChoiceAuto := tools.isSome }

/-- A call of `self.client.messages.create(**params)`: records the call, then either
the transport exception propagates or the response is recorded. -/
def makeCall (client : Client) (st : RunState) (c : ApiCall) :
    Except PyError Response × RunState :=
  match client (st.calls ++ [c]) with
  | .error m => (.error (.transport m), ⟨st.calls ++ [c], st.resps, st.execs⟩)
  | .ok r => (.ok r, ⟨st.calls ++ [c], st.resps ++ [r], st.execs⟩)

/-- The access `response.content[0].text`: `IndexError` on empty content,
`AttributeError` when the first block is not a text block. -/
def contentFirstText (r : Response) : Except PyError String :=
  match r.content with
  | [] => .error .indexError
  | .text t :: _ => .ok t
  | .toolUse _ _ _ :: _ => .error .attributeError

/-- The `for block in response.content: if hasattr(block, 'text'): return
block.text` loop of `generate_response`, with fallback `""`. -/
def firstTextOrEmpty : List ContentBlock → String
  | [] => ""
  | .text t :: _ => t
  | .toolUse _ _ _ :: rest => firstTextOrEmpty rest

/-- Outcome of one in-round `for content_block in current_response.content`
loop: the tool-result dicts built, whether a failure occurred, and the
`execute_tool` invocations attempted (name and kwargs, in order). -/
structure BlockExecOutcome where
  results : List ToolResult
  failed : Bool
  attempts : List (String × ToolInput)
  deriving DecidableEq, Repr

/-- The budgeted-round execution loop (`_execute_tool_rounds` STEP 2):
executes tool-use blocks in order; on the first raised exception it appends
an `is_error` result and `break`s out of the loop. -/
def runBlocksFailFast (tm : ToolExec) : List ContentBlock → BlockExecOutcome
  | [] => ⟨[], false, []⟩
  | .text _ :: rest => runBlocksFailFast tm rest
  | .toolUse nm tid inp :: rest =>
    match tm nm inp with
    | .ok r =>
      let o := runBlocksFailFast tm rest
      ⟨⟨tid, r, false⟩ :: o.results, o.failed, (nm, inp) :: o.attempts⟩
    | .error e => ⟨[⟨tid, "Tool execution failed: " ++ e, true⟩], true, [(nm, inp)]⟩

/-- The post-budget execution loop (`_execute_tool_rounds` TERMINATION
CHECK 3): executes every tool-use block; exceptions become `is_error`
results but the loop continues (no `break`). -/
def runBlocksAll (tm : ToolExec) : List ContentBlock → List ToolResult × List (String × ToolInput)
  | [] => ([], [])
  | .text _ :: rest => runBlocksAll tm rest
  | .toolUse nm tid inp :: rest =>
    let o := runBlocksAll tm rest
    match tm nm inp with
    | .ok r => (⟨tid, r, false⟩ :: o.1, (nm, inp) :: o.2)
    | .error e => (⟨tid, "Tool execution failed: " ++ e, true⟩ :: o.1, (nm, inp) :: o.2)

/-- The `while current_round < max_rounds` loop of `_execute_tool_rounds`,
with `fuel = max_rounds - current_round` at loop entry; `is_last_round`
corresponds to `fuel = 0` after the decrement. Mirrors the source
statement by statement, including the sentinel fallback string when the
loop exhausts. -/
def loopRounds (client : Client) (tm : ToolExec) (baseTools : Option (List ToolDef))
    (model sys : String) : Nat → List Message → Response → RunState →
    Except PyError String × RunState
  | 0, _, _, st =>
    (.ok "Error: Maximum rounds exceeded without proper termination", st)
  | fuel + 1, msgs, cur, st =>
    let msgs1 := msgs ++ [⟨"assistant", .blocks cur.content⟩]
    let o := runBlocksFailFast tm cur.content
    let st1 : RunState := { st with execs := st.execs ++ o.attempts }
    let msgs2 := if o.results.isEmpty then msgs1 else msgs1 ++ [⟨"user", .results o.results⟩]
    if o.failed then
      let mc := makeCall client st1 (mkCall model sys msgs2 none)
      match mc.1 with
      | .error pe => (.error pe, mc.2)
      | .ok r => (contentFirstText r, mc.2)
    else
      let isLast := fuel == 0
      let nextTools : Option (List ToolDef) :=
        if isLast then none else some (baseTools.getD [])
      let mc := makeCall client st1 (mkCall model sys msgs2 nextTools)
      match mc.1 with
      | .error pe => (.error pe, mc.2)
      | .ok r =>
        if r.stop_reason ≠ "tool_use" then (contentFirstText r, mc.2)
        else if isLast then
          let msgs3 := msgs2 ++ [⟨"assistant", .blocks r.content⟩]
          let o2 := runBlocksAll tm r.content
          let st3 : RunState := { mc.2 with execs := mc.2.execs ++ o2.2 }
          let msgs4 := if o2.1.isEmpty then msgs3 else msgs3 ++ [⟨"user", .results o2.1⟩]
          let mc2 := makeCall client st3 (mkCall model sys msgs4 none)
          match mc2.1 with
          | .error pe => (.error pe, mc2.2)
          | .ok r2 => (contentFirstText r2, mc2.2)
        else loopRounds client tm baseTools model sys fuel msgs2 r mc.2

/-- The method `AIGenerator.generate_response`: builds the system content (history is
appended only when truthy), attaches `tools`/`tool_choice` only when the
`tools` argument is truthy (non-`None`, non-empty), makes the first call,
and either returns the first text block's text (fallback `""`) or enters
`_execute_tool_rounds` with `max_rounds = 2`. -/
def generate_response (client : Client) (model : String) (query : String)
    (history : Option String) (tools : Option (List ToolDef)) (tm : Option ToolExec) :
    Except PyError String × RunState :=
  let sys := match history with
    | some h => if h = "" then SYSTEM_PROMPT
        else SYSTEM_PROMPT ++ "\n\nPrevious conversation:\n" ++ h
    | none => SYSTEM_PROMPT
  let toolsParam : Option (List ToolDef) := match tools with
    | some l => if l.isEmpty then none else some l
    | none => none
  let initMsgs : List Message := [⟨"user", .str query⟩]
  let mc := makeCall client ⟨[], [], []⟩ (mkCall model sys initMsgs toolsParam)
  match mc.1 with
  | .error pe => (.error pe, mc.2)
  | .ok r =>
    match tm with
    | some tmgr =>
      if r.stop_reason = "tool_use" then
        loopRounds client tmgr toolsParam model sys 2 initMsgs r mc.2
      else (.ok (firstTextOrEmpty r.content), mc.2)
    | none => (.ok (firstTextOrEmpty r.content), mc.2)

/-- Tool-use blocks of a content list, as (name, input) pairs in order. -/
def toolCallsOf (bs : List ContentBlock) : List (String × ToolInput) :=
  bs.filterMap fun b => match b with
    | .toolUse nm _ inp => some (nm, inp)
    | .text _ => none

/-- Number of tool-use blocks in a content list. -/
def toolUseCount (bs : List ContentBlock) : Nat := (toolCallsOf bs).length

/-- A tool executor that never raises. -/
def tmOf (f : String → ToolInput → String) : ToolExec := fun nm inp => .ok (f nm inp)

/-- Default call record used for positional access into traces. -/
def cDefault : ApiCall := mkCall "" "" [] none

/-- Default response used for positional access into traces. -/
def rDefault : Response := ⟨[], ""⟩

/-! ## Retrieval tools

`backend/search_tools.py` and `backend/vector_store.py` are not among the
sources; the definitions below are modelled from the specification (§3,
§4.3) and checked for consistency with the repository tests
(`tests/test_course_search_tool.py`, `tests/test_deduplication.py`). -/

/-- Modelled from the spec: metadata mapping of one retrieval result
(`course_title`, optional `lesson_number`), from `search_tools.py`, which
is missing from the sources. -/
structure SearchMeta where
  course_title : String
  lesson_number : Option Nat
  deriving DecidableEq, Repr

/-- Modelled from the spec: `RetrievalOutcome` ("SearchResults") of
`vector_store.py`, which is missing from the sources — parallel
`documents` / `metadata` / `distances` sequences plus an optional
authoritative `error`. -/
structure SearchResults where
  documents : List String
  metadata : List SearchMeta
  distances : List Rat
  error : Option String
  deriving DecidableEq, Repr

/-- A citation `{text, link}` recorded by a tool. -/
structure Source where
  text : String
  link : Option String
  deriving DecidableEq, Repr

/-- Modelled from the spec: one lesson record of a course outline. -/
structure LessonInfo where
  lesson_number : Nat
  lesson_title : String
  lesson_link : Option String
  deriving DecidableEq, Repr

/-- Modelled from the spec: the outline record returned by the backend's
`get_course_outline`. -/
structure CourseOutline where
  course_title : String
  course_link : Option String
  instructor : String
  lessons : List LessonInfo
  deriving DecidableEq, Repr

/-- Modelled from the spec: the retrieval backend (`vector_store.py`,
missing from the sources) as consumed by the tools — `search`,
`get_lesson_link`, `get_course_outline`. -/
structure VectorStore where
  search : String → Option String → Option Nat → SearchResults
  get_lesson_link : String → Nat → Option String
  get_course_outline : String → Option CourseOutline

/-- The composite citation key `"<course_title> - Lesson <n>"`, or the bare
course title when no lesson number is present. -/
def sourceKey (m : SearchMeta) : String :=
  match m.lesson_number with
  | some n => m.course_title ++ " - Lesson " ++ toString n
  | none => m.course_title

/-- One formatted result block: a header `[<course_title>]` or
`[<course_title> - Lesson <n>]` followed by the document body. -/
def formatBlock (m : SearchMeta) (doc : String) : String :=
  "[" ++ m.course_title ++
    (match m.lesson_number with
     | some n => " - Lesson " ++ toString n
     | none => "") ++ "]\n" ++ doc

/-- Modelled from the spec: the zero-match message of
`CourseSearchTool.execute` — exactly `"No relevant content found."` with no
filters, with the course and/or lesson qualifier appended when those
filters were supplied (course+lesson uses the course shape with the lesson
qualifier appended). -/
def noContentMsg (course_name : Option String) (lesson_number : Option Nat) : String :=
  "No relevant content found" ++
    (match course_name with
     | some c => " in course \x27" ++ c ++ "\x27"
     | none => "") ++
    (match lesson_number with
     | some n => " in lesson " ++ toString n
     | none => "") ++ "."

/-- Modelled from the spec: the per-result loop of
`CourseSearchTool.execute` (from `search_tools.py`, missing from the
sources) — formats each `(document, metadata)` pair in backend order, and
appends a `{text: key, link}` source only when the composite text key has
not already been recorded, resolving the link via the backend's
lesson-link lookup when a lesson number is present. -/
def searchLoop (store : VectorStore) : List (String × SearchMeta) →
    List String → List Source → List String × List Source
  | [], fmts, srcs => (fmts, srcs)
  | (doc, m) :: rest, fmts, srcs =>
    let key := sourceKey m
    let srcs1 :=
      if key ∈ srcs.map Source.text then srcs
      else srcs ++ [⟨key,
        match m.lesson_number with
        | some n => store.get_lesson_link m.course_title n
        | none => none⟩]
    searchLoop store rest (fmts ++ [formatBlock m doc]) srcs1

/-- Modelled from the spec: `CourseSearchTool.execute(query, course_name?,
lesson_number?)` of `search_tools.py`, which is missing from the sources.
Returns the formatted text together with the sources recorded by this
execution (`self.last_sources`). Backend errors are returned verbatim with
no sources; zero matches yield the qualified no-content message. -/
def CourseSearchTool.execute (store : VectorStore) (query : String)
    (course_name : Option String) (lesson_number : Option Nat) :
    String × List Source :=
  let results := store.search query course_name lesson_number
  match results.error with
  | some e => (e, [])
  | none =>
    if results.documents.isEmpty then
      (noContentMsg course_name lesson_number, [])
    else
      let fs := searchLoop store (results.documents.zip results.metadata) [] []
      (String.intercalate "\n\n" fs.1, fs.2)

/-- Modelled from the spec: the lesson loop of `CourseOutlineTool.execute`
(from `search_tools.py`, missing from the sources) — records each lesson's
link in order, deduplicated by link value against everything already
recorded (including the course-level link); lessons without a link record
nothing. -/
def outlineLoop : List LessonInfo → List Source → List Source
  | [], srcs => srcs
  | les :: rest, srcs =>
    match les.lesson_link with
    | none => outlineLoop rest srcs
    | some l =>
      if some l ∈ srcs.map Source.link then outlineLoop rest srcs
      else outlineLoop rest
        (srcs ++ [⟨"Lesson " ++ toString les.lesson_number ++ ": " ++ les.lesson_title, some l⟩])

/-- One formatted outline line for a lesson. -/
def lessonLine (les : LessonInfo) : String :=
  "Lesson " ++ toString les.lesson_number ++ ": " ++ les.lesson_title ++
    (match les.lesson_link with
     | some l => " (" ++ l ++ ")"
     | none => "")

/-- Modelled from the spec: `CourseOutlineTool.execute(course_name)` of
`search_tools.py`, which is missing from the sources. Resolves the outline
(failing with a course-not-found message), formats it, and records the
course-level link first (when present) followed by the lesson links,
deduplicated by link value. -/
def CourseOutlineTool.execute (store : VectorStore) (course_name : String) :
    String × List Source :=
  match store.get_course_outline course_name with
  | none => ("No course found matching \x27" ++ course_name ++ "\x27", [])
  | some o =>
    let courseSrcs : List Source :=
      match o.course_link with
      | some l => [⟨o.course_title, some l⟩]
      | none => []
    let srcs := outlineLoop o.lessons courseSrcs
    let txt := o.course_title ++
      (match o.course_link with
       | some l => "\n" ++ l
       | none => "") ++
      "\nInstructor: " ++ o.instructor ++ "\n" ++
      String.intercalate "\n" (o.lessons.map lessonLine)
    (txt, srcs)

/-- First-occurrence deduplication, as the spec describes the citation
lists: keep each value's first occurrence, erase the later duplicates. -/
def firstSeen : List String → List String
  | [] => []
  | k :: rest => k :: firstSeen (rest.filter (fun x => x ≠ k))
termination_by l => l.length
decreasing_by
  simp only [List.length_cons]
  exact Nat.lt_succ_of_le (List.length_filter_le _ _)

/-- The link values among the course link and the lesson links, in
recording order. -/
def linkValues (o : CourseOutline) : List String :=
  (match o.course_link with
   | some l => [l]
   | none => []) ++ o.lessons.filterMap LessonInfo.lesson_link

/-- The first API call recorded by a run (`cDefault` if none was made). -/
def firstCallOf (st : RunState) : ApiCall := st.calls.head?.getD cDefault

/-- A completion service that always answers directly with one text block. -/
def clientDirect : Client := fun _ => .ok ⟨[.text "hi"], "end_turn"⟩

/-- A completion service that requests one tool on each of its first three
calls (the third being the response to the forced tools-disabled call) and
answers on the fourth. -/
def clientThreeToolUse : Client := fun cs =>
  if cs.length = 1 then
    .ok ⟨[.toolUse "search_course_content" "t1" [("query", "X")]], "tool_use"⟩
  else if cs.length = 2 then
    .ok ⟨[.toolUse "search_course_content" "t2" [("query", "Y")]], "tool_use"⟩
  else if cs.length = 3 then
    .ok ⟨[.toolUse "search_course_content" "t3" [("query", "Z")]], "tool_use"⟩
  else .ok ⟨[.text "final answer"], "end_turn"⟩

/-- A completion service whose response to the forced tools-disabled call
contains a failing tool-use block followed by another tool-use block. -/
def clientLateFailure : Client := fun cs =>
  if cs.length = 1 then
    .ok ⟨[.toolUse "search_course_content" "t1" [("query", "A")]], "tool_use"⟩
  else if cs.length = 2 then
    .ok ⟨[.toolUse "search_course_content" "t2" [("query", "B")]], "tool_use"⟩
  else if cs.length = 3 then
    .ok ⟨[.toolUse "bad_tool" "t3" [], .toolUse "search_course_content" "t4" [("query", "C")]],
      "tool_use"⟩
  else .ok ⟨[.text "late answer"], "end_turn"⟩

/-- A completion service whose first response requests three tools (the
second of which will fail) and which then answers directly. -/
def clientRoundFail : Client := fun cs =>
  if cs.length = 1 then
    .ok ⟨[.toolUse "tool_ok" "t1" [("query", "A")], .toolUse "bad_tool" "t2" [],
      .toolUse "tool_ok" "t3" [("query", "B")]], "tool_use"⟩
  else .ok ⟨[.text "error noticed"], "end_turn"⟩

/-- A completion service whose second response has empty content. -/
def clientEmptyFinal : Client := fun cs =>
  if cs.length = 1 then
    .ok ⟨[.toolUse "search_course_content" "t1" [("query", "A")]], "tool_use"⟩
  else .ok ⟨[], "end_turn"⟩

/-- A completion service that always raises a transport exception. -/
def clientBoom : Client := fun _ => .error "boom"

/-- A tool executor that always succeeds. -/
def tmAlwaysOk : ToolExec := tmOf fun _ _ => "result"

/-- A tool executor that raises exactly on the tool named `bad_tool`. -/
def tmFailBad : ToolExec := fun nm _ =>
  if nm = "bad_tool" then .error "boom" else .ok "fine"

/-- A backend returning three documents all tagged course `Test Course`,
lesson 1 (the deduplication scenario of the spec and
`test_search_tool_deduplicates_sources`). -/
def storeThreeSame : VectorStore where
  search := fun _ _ _ =>
    ⟨["Content chunk 1 from lesson 1", "Content chunk 2 from lesson 1",
      "Content chunk 3 from lesson 1"],
     [⟨"Test Course", some 1⟩, ⟨"Test Course", some 1⟩, ⟨"Test Course", some 1⟩],
     [(1 : Rat) / 10, (2 : Rat) / 10, (3 : Rat) / 10], none⟩
  get_lesson_link := fun _ _ => some "http://example.com/lesson1"
  get_course_outline := fun _ => none

/-- A backend that reports zero matches with no error. -/
def storeEmptyRes : VectorStore where
  search := fun _ _ _ => ⟨[], [], [], none⟩
  get_lesson_link := fun _ _ => none
  get_course_outline := fun _ => none

/-- The outline of `test_outline_tool_deduplicates_links`: three lessons,
two of which share a link. -/
def outlineDupLinks : CourseOutline where
  course_title := "Test Course"
  course_link := some "http://example.com/course"
  instructor := "Test Instructor"
  lessons :=
    [⟨1, "Introduction", some "http://example.com/lesson1"⟩,
     ⟨2, "Basics", some "http://example.com/lesson2"⟩,
     ⟨3, "Advanced", some "http://example.com/lesson1"⟩]

/-- A backend resolving only the `Test Course` outline. -/
def storeOutline : VectorStore where
  search := fun _ _ _ => ⟨[], [], [], none⟩
  get_lesson_link := fun _ _ => none
  get_course_outline := fun n => if n = "Test Course" then some outlineDupLinks else none

/-! ## Lemmas about the embedded operations -/

theorem makeCall_snd_calls (client : Client) (st : RunState) (c : ApiCall) :
    (makeCall client st c).2.calls = st.calls ++ [c] := by
  unfold makeCall; split <;> rfl

theorem makeCall_snd_execs (client : Client) (st : RunState) (c : ApiCall) :
    (makeCall client st c).2.execs = st.execs := by
  unfold makeCall; split <;> rfl

theorem makeCall_of_ok {client : Client} {st : RunState} {c : ApiCall} {r : Response}
    (h : client (st.calls ++ [c]) = .ok r) :
    makeCall client st c = (.ok r, ⟨st.calls ++ [c], st.resps ++ [r], st.execs⟩) := by
  unfold makeCall; rw [h]

theorem makeCall_of_error {client : Client} {st : RunState} {c : ApiCall} {m : String}
    (h : client (st.calls ++ [c]) = .error m) :
    makeCall client st c = (.error (.transport m), ⟨st.calls ++ [c], st.resps, st.execs⟩) := by
  unfold makeCall; rw [h]

@[simp]
theorem toolCallsOf_nil : toolCallsOf [] = [] := rfl

@[simp]
theorem toolCallsOf_cons_text (t : String) (rest : List ContentBlock) :
    toolCallsOf (ContentBlock.text t :: rest) = toolCallsOf rest := rfl

@[simp]
theorem toolCallsOf_cons_toolUse (nm tid : String) (inp : ToolInput) (rest : List ContentBlock) :
    toolCallsOf (ContentBlock.toolUse nm tid inp :: rest) = (nm, inp) :: toolCallsOf rest := rfl

/-- With an executor that never raises, the budgeted-round loop reports no
failure. -/
theorem runBlocksFailFast_tmOf_failed (f : String → ToolInput → String) (bs : List ContentBlock) :
    (runBlocksFailFast (tmOf f) bs).failed = false := by
  induction bs with
  | nil => rfl
  | cons b rest ih => cases b <;> simp [runBlocksFailFast, tmOf, ih]

/-- With an executor that never raises, the budgeted-round loop attempts
exactly the tool-use blocks, in order. -/
theorem runBlocksFailFast_tmOf_attempts (f : String → ToolInput → String) (bs : List ContentBlock) :
    (runBlocksFailFast (tmOf f) bs).attempts = toolCallsOf bs := by
  induction bs with
  | nil => rfl
  | cons b rest ih => cases b <;> simp [runBlocksFailFast, tmOf, ih]

/-- The post-budget loop attempts every tool-use block, failures included. -/
theorem runBlocksAll_attempts (tm : ToolExec) (bs : List ContentBlock) :
    (runBlocksAll tm bs).2 = toolCallsOf bs := by
  induction bs with
  | nil => rfl
  | cons b rest ih =>
    cases b with
    | text t => simpa [runBlocksAll] using ih
    | toolUse nm tid inp => cases htm : tm nm inp <;> simp [runBlocksAll, htm, ih]

/-- The budgeted-round loop never attempts more executions than there are
tool-use blocks. -/
theorem runBlocksFailFast_attempts_length (tm : ToolExec) (bs : List ContentBlock) :
    (runBlocksFailFast tm bs).attempts.length ≤ toolUseCount bs := by
  induction bs with
  | nil => exact Nat.le_refl _
  | cons b rest ih =>
    cases b with
    | text t => simpa [runBlocksFailFast, toolUseCount] using ih
    | toolUse nm tid inp =>
      cases htm : tm nm inp with
      | ok r =>
        simpa [runBlocksFailFast, htm, toolUseCount] using Nat.succ_le_succ ih
      | error e =>
        simp [runBlocksFailFast, htm, toolUseCount]

/-- Fail-fast: once a tool-use block raises, the blocks after it are not
executed — the loop outcome does not depend on them at all. -/
theorem runBlocksFailFast_append {tm : ToolExec} {pre : List ContentBlock}
    (h : (runBlocksFailFast tm pre).failed = false)
    {nm tid inp e} (he : tm nm inp = .error e) (rest : List ContentBlock) :
    runBlocksFailFast tm (pre ++ ContentBlock.toolUse nm tid inp :: rest) =
      ⟨(runBlocksFailFast tm pre).results ++ [⟨tid, "Tool execution failed: " ++ e, true⟩],
       true, (runBlocksFailFast tm pre).attempts ++ [(nm, inp)]⟩ := by
  induction pre with
  | nil => simp [runBlocksFailFast, he]
  | cons b pre ih =>
    cases b with
    | text t =>
      simpa [runBlocksFailFast] using ih (by simpa [runBlocksFailFast] using h)
    | toolUse nm' tid' inp' =>
      cases htm : tm nm' inp' with
      | ok r =>
        have h' : (runBlocksFailFast tm pre).failed = false := by
          simpa [runBlocksFailFast, htm] using h
        simp [runBlocksFailFast, htm, ih h']
      | error e' =>
        exfalso
        simp [runBlocksFailFast, htm] at h

theorem firstSeen_cons (k : String) (rest : List String) :
    firstSeen (k :: rest) = k :: firstSeen (rest.filter fun x => x ≠ k) := by
  rw [firstSeen]

theorem mem_firstSeen (a : String) (l : List String) : a ∈ firstSeen l ↔ a ∈ l := by
  induction l using firstSeen.induct with
  | case1 => simp [firstSeen]
  | case2 k rest ih =>
    rw [firstSeen_cons]
    by_cases hak : a = k
    · subst hak; simp
    · simp only [List.mem_cons, hak, false_or]
      rw [ih]
      simp [List.mem_filter, hak]

theorem nodup_firstSeen (l : List String) : (firstSeen l).Nodup := by
  induction l using firstSeen.induct with
  | case1 => simp [firstSeen]
  | case2 k rest ih =>
    rw [firstSeen_cons]
    refine List.nodup_cons.mpr ⟨?_, ih⟩
    intro hk
    rw [mem_firstSeen] at hk
    simp [List.mem_filter] at hk

theorem toFinset_firstSeen (l : List String) : (firstSeen l).toFinset = l.toFinset := by
  ext a; simp [List.mem_toFinset, mem_firstSeen]

/-- The length of the first-occurrence deduplication is the number of
distinct values. -/
theorem length_firstSeen (l : List String) : (firstSeen l).length = l.toFinset.card := by
  rw [← toFinset_firstSeen, List.toFinset_card_of_nodup (nodup_firstSeen l)]

/-- The text keys recorded by the search-tool loop: the accumulator's keys
followed by the first-occurrence deduplication of the not-yet-recorded
incoming keys. -/
theorem searchLoop_snd (store : VectorStore) (ms : List (String × SearchMeta)) :
    ∀ (fmts : List String) (srcs : List Source),
    ((searchLoop store ms fmts srcs).2).map Source.text =
      srcs.map Source.text ++
        firstSeen ((ms.map fun p => sourceKey p.2).filter
          fun k => k ∉ srcs.map Source.text) := by
  induction ms with
  | nil => intro fmts srcs; simp [searchLoop, firstSeen]
  | cons p rest ih =>
    obtain ⟨doc, m⟩ := p
    intro fmts srcs
    rw [searchLoop]
    simp only [List.map_cons]
    by_cases h : sourceKey m ∈ srcs.map Source.text
    · rw [if_pos h, ih, List.filter_cons_of_neg (by simp [h])]
    · rw [if_neg h, ih]
      have hmap : ((srcs ++ [(⟨sourceKey m,
          match m.lesson_number with
          | some n => store.get_lesson_link m.course_title n
          | none => none⟩ : Source)]).map Source.text) =
          srcs.map Source.text ++ [sourceKey m] := by simp
      simp only [hmap]
      rw [List.filter_cons_of_pos (by simp [h]), firstSeen_cons, List.filter_filter,
        List.append_assoc, List.singleton_append]
      congr 2
      apply congrArg
      apply List.filter_congr
      intro a _
      by_cases hak : a = sourceKey m
      · subst hak; simp
      · simp [hak]

/-- The links recorded by the outline-tool lesson loop: the accumulator's
links followed by the first occurrences of the not-yet-recorded lesson
links. -/
theorem outlineLoop_links (lessons : List LessonInfo) :
    ∀ (srcs : List Source),
    (outlineLoop lessons srcs).map Source.link =
      srcs.map Source.link ++
        (firstSeen ((lessons.filterMap LessonInfo.lesson_link).filter
          fun l => some l ∉ srcs.map Source.link)).map some := by
  induction lessons with
  | nil => intro srcs; simp [outlineLoop, firstSeen]
  | cons les rest ih =>
    intro srcs
    rw [outlineLoop]
    cases hlink : les.lesson_link with
    | none =>
      dsimp only
      simp only [List.filterMap_cons, hlink]
      exact ih srcs
    | some l =>
      dsimp only
      simp only [List.filterMap_cons, hlink]
      by_cases h : some l ∈ srcs.map Source.link
      · rw [if_pos h, ih, List.filter_cons_of_neg (by simp [h])]
      · rw [if_neg h, ih]
        have hmap : ((srcs ++ [(⟨"Lesson " ++ toString les.lesson_number ++ ": " ++
            les.lesson_title, some l⟩ : Source)]).map Source.link) =
            srcs.map Source.link ++ [some l] := by simp
        simp only [hmap]
        rw [List.filter_cons_of_pos (by simp [h]), firstSeen_cons, List.filter_filter,
          List.map_cons, List.append_assoc, List.singleton_append]
        congr 3
        apply congrArg
        apply List.filter_congr
        intro a _
        by_cases hal : a = l
        · subst hal; simp
        · simp [hal]

/-- The outline-tool lesson loop only appends to the already-recorded
sources. -/
theorem outlineLoop_prefix (lessons : List LessonInfo) :
    ∀ (srcs : List Source), ∃ l, outlineLoop lessons srcs = srcs ++ l := by
  induction lessons with
  | nil => intro srcs; exact ⟨[], by simp [outlineLoop]⟩
  | cons les rest ih =>
    intro srcs
    rw [outlineLoop]
    cases hlink : les.lesson_link with
    | none => dsimp only; exact ih srcs
    | some l =>
      dsimp only
      by_cases h : some l ∈ srcs.map Source.link
      · rw [if_pos h]; exact ih srcs
      · rw [if_neg h]
        obtain ⟨tail, htail⟩ := ih (srcs ++ [⟨"Lesson " ++ toString les.lesson_number ++ ": " ++
          les.lesson_title, some l⟩])
        refine ⟨[(⟨"Lesson " ++ toString les.lesson_number ++ ": " ++
          les.lesson_title, some l⟩ : Source)] ++ tail, ?_⟩
        rw [htail, List.append_assoc]

/-- Auxiliary: the head of a nonempty list is unchanged by appending. -/
theorem head_append_ne {α : Type} (l l2 : List α) (h : l ≠ []) :
    (l ++ l2).head? = l.head? := by
  cases l with
  | nil => exact absurd rfl h
  | cons a t => rfl

/-- Every API call appended by the round loop carries the base parameters:
the configured model, temperature 0, `max_tokens` 800, and the system
content built once per query. -/
theorem loopRounds_calls_params (client : Client) (tm : ToolExec)
    (baseTools : Option (List ToolDef)) (model sys : String) :
    ∀ (fuel : Nat) (msgs : List Message) (cur : Response) (st : RunState),
    (∀ c ∈ st.calls, c.model = model ∧ c.temperature = 0 ∧ c.maxTokens = 800 ∧ c.system = sys) →
    ∀ c ∈ (loopRounds client tm baseTools model sys fuel msgs cur st).2.calls,
      c.model = model ∧ c.temperature = 0 ∧ c.maxTokens = 800 ∧ c.system = sys := by
  intro fuel
  induction fuel with
  | zero =>
    intro msgs cur st hbase c hc
    simp only [loopRounds] at hc
    exact hbase c hc
  | succ fuel ih =>
    intro msgs cur st hbase c hc
    simp only [loopRounds] at hc
    split at hc
    · split at hc <;>
      · rw [makeCall_snd_calls] at hc
        rcases List.mem_append.mp hc with h | h
        · exact hbase c h
        · rw [List.mem_singleton] at h; subst h; simp [mkCall]
    · split at hc
      · rw [makeCall_snd_calls] at hc
        rcases List.mem_append.mp hc with h | h
        · exact hbase c h
        · rw [List.mem_singleton] at h; subst h; simp [mkCall]
      · split at hc
        · rw [makeCall_snd_calls] at hc
          rcases List.mem_append.mp hc with h | h
          · exact hbase c h
          · rw [List.mem_singleton] at h; subst h; simp [mkCall]
        · split at hc
          · split at hc <;>
            · rw [makeCall_snd_calls] at hc
              dsimp only at hc
              rw [makeCall_snd_calls] at hc
              rcases List.mem_append.mp hc with h | h
              · rcases List.mem_append.mp h with h2 | h2
                · exact hbase c h2
                · rw [List.mem_singleton] at h2; subst h2; simp [mkCall]
              · rw [List.mem_singleton] at h; subst h; simp [mkCall]
          · refine ih _ _ _ ?_ c hc
            intro c2 hc2
            rw [makeCall_snd_calls] at hc2
            rcases List.mem_append.mp hc2 with h | h
            · exact hbase c2 h
            · rw [List.mem_singleton] at h; subst h; simp [mkCall]

/-- The round loop only appends API calls: the first recorded call is
unchanged. -/
theorem loopRounds_calls_head (client : Client) (tm : ToolExec)
    (baseTools : Option (List ToolDef)) (model sys : String) :
    ∀ (fuel : Nat) (msgs : List Message) (cur : Response) (st : RunState),
    st.calls ≠ [] →
    (loopRounds client tm baseTools model sys fuel msgs cur st).2.calls.head? = st.calls.head? := by
  intro fuel
  induction fuel with
  | zero =>
    intro msgs cur st _
    simp only [loopRounds]
  | succ fuel ih =>
    intro msgs cur st hne
    simp only [loopRounds]
    split
    · split <;>
      · rw [makeCall_snd_calls]
        exact head_append_ne _ _ hne
    · split
      · rw [makeCall_snd_calls]
        exact head_append_ne _ _ hne
      · split
        · rw [makeCall_snd_calls]
          exact head_append_ne _ _ hne
        · split
          · split <;>
            · rw [makeCall_snd_calls]
              dsimp only
              rw [makeCall_snd_calls]
              rw [head_append_ne _ _ (by simp), head_append_ne _ _ hne]
          · rw [ih _ _ _ (by rw [makeCall_snd_calls]; simp),
              makeCall_snd_calls, head_append_ne _ _ hne]

/-! ## Claim theorems -/

/-- Shared helper: the first API call of any `generate_response` run is the
initial call — user query message, and the tools parameter attached exactly
when the `tools` argument is truthy. -/
theorem generate_response_first_call (client : Client) (model query : String)
    (history : Option String) (tools : Option (List ToolDef)) (tm : Option ToolExec) :
    ∃ sys, firstCallOf (generate_response client model query history tools tm).2 =
      mkCall model sys [⟨"user", MsgContent.str query⟩]
        (match tools with
         | some l => if l.isEmpty then none else some l
         | none => none) := by
  refine ⟨match history with
    | some h => if h = "" then SYSTEM_PROMPT
        else SYSTEM_PROMPT ++ "\n\nPrevious conversation:\n" ++ h
    | none => SYSTEM_PROMPT, ?_⟩
  simp only [generate_response, firstCallOf]
  split
  · rw [makeCall_snd_calls]
    rfl
  · split
    · split
      · rw [loopRounds_calls_head]
        · rw [makeCall_snd_calls]
          rfl
        · rw [makeCall_snd_calls]
          simp
      · rw [makeCall_snd_calls]
        rfl
    · rw [makeCall_snd_calls]
      rfl

/-- C10: every completion-service call made during a single
`generate_response` invocation — initial call, intermediate round calls,
and all finalization calls — uses the same fixed parameters: the
configured model, temperature 0, and `max_tokens` 800. -/
theorem C10_every_call_uses_base_params (client : Client) (model query : String)
    (history : Option String) (tools : Option (List ToolDef)) (tm : Option ToolExec) :
    ∀ c ∈ (generate_response client model query history tools tm).2.calls,
      c.model = model ∧ c.temperature = 0 ∧ c.maxTokens = 800 := by
  intro c hc
  simp only [generate_response] at hc
  split at hc
  · rw [makeCall_snd_calls] at hc
    simp only [List.nil_append, List.mem_singleton] at hc
    subst hc
    simp [mkCall]
  · split at hc
    · split at hc
      · have h := loopRounds_calls_params client _ _ model _ 2 _ _ _ ?hb c hc
        · exact ⟨h.1, h.2.1, h.2.2.1⟩
        case hb =>
          intro c2 hc2
          rw [makeCall_snd_calls] at hc2
          simp only [List.nil_append, List.mem_singleton] at hc2
          subst hc2
          simp [mkCall]
      · rw [makeCall_snd_calls] at hc
        simp only [List.nil_append, List.mem_singleton] at hc
        subst hc
        simp [mkCall]
    · rw [makeCall_snd_calls] at hc
      simp only [List.nil_append, List.mem_singleton] at hc
      subst hc
      simp [mkCall]

/-- C10 witness: in a concrete direct-answer run, the one recorded call
carries the configured model, temperature 0 and `max_tokens` 800. -/
theorem C10_witness :
    (mkCall "m" SYSTEM_PROMPT [⟨"user", MsgContent.str "q"⟩] none).model = "m" ∧
    (mkCall "m" SYSTEM_PROMPT [⟨"user", MsgContent.str "q"⟩] none).temperature = 0 ∧
    (mkCall "m" SYSTEM_PROMPT [⟨"user", MsgContent.str "q"⟩] none).maxTokens = 800 :=
  C10_every_call_uses_base_params clientDirect "m" "q" none none none _
    (by rw [show (generate_response clientDirect "m" "q" none none none).2.calls =
          [mkCall "m" SYSTEM_PROMPT [⟨"user", MsgContent.str "q"⟩] none] from rfl]
        exact List.mem_singleton.mpr rfl)

/-- C6 counterexample: with tool definitions supplied but **no** tool
executor, the first completion call still carries the tools parameter —
the code only checks truthiness of `tools` (`ai_generator.py` line 93),
refuting "if either is absent, no tools parameter is passed". -/
theorem C6_counterexample_tools_without_executor :
    (firstCallOf (generate_response clientDirect "model-x" "q" none
        (some ["search_course_content"]) none).2).tools = some ["search_course_content"] ∧
    (firstCallOf (generate_response clientDirect "model-x" "q" none
        (some ["search_course_content"]) none).2).toolChoiceAuto = true := by
  exact ⟨rfl, rfl⟩

/-- C6 amended: the first completion call includes the tool definitions
with automatic tool selection enabled if and only if a truthy (non-`None`,
non-empty) tool definitions list was supplied; the presence of the tool
executor is not checked when attaching tools (it only gates whether tool
rounds execute). -/
theorem C6_first_call_tools_iff_truthy (client : Client) (model query : String)
    (history : Option String) (tools : Option (List ToolDef)) (tm : Option ToolExec) :
    ((firstCallOf (generate_response client model query history tools tm).2).tools ≠ none
        ↔ ∃ l, tools = some l ∧ l ≠ []) ∧
    ((firstCallOf (generate_response client model query history tools tm).2).toolChoiceAuto = true
        ↔ (firstCallOf (generate_response client model query history tools tm).2).tools ≠ none) ∧
    (∀ l, tools = some l → l ≠ [] →
      (firstCallOf (generate_response client model query history tools tm).2).tools = some l) := by
  obtain ⟨sys, hfirst⟩ := generate_response_first_call client model query history tools tm
  rw [hfirst]
  refine ⟨?_, ?_, ?_⟩
  · cases tools with
    | none => simp [mkCall]
    | some l =>
      by_cases hl : l.isEmpty
      · have : l = [] := List.isEmpty_iff.mp hl
        subst this
        simp [mkCall]
      · have : l ≠ [] := fun h => hl (by simp [h])
        simp [mkCall, hl, this]
  · cases tools with
    | none => simp [mkCall]
    | some l =>
      by_cases hl : l.isEmpty
      · simp [mkCall, hl]
      · simp [mkCall, hl]
  · intro l hl hne
    subst hl
    have : l.isEmpty = false := by
      cases l with
      | nil => exact absurd rfl hne
      | cons a t => rfl
    simp [mkCall, this]

/-- C6 witness: with a truthy tool list and an executor, the first call
carries exactly the supplied tool definitions. -/
theorem C6_witness :
    (firstCallOf (generate_response clientDirect "m" "q" none (some ["a"])
        (some tmAlwaysOk)).2).tools = some ["a"] :=
  (C6_first_call_tools_iff_truthy clientDirect "m" "q" none (some ["a"])
      (some tmAlwaysOk)).2.2 ["a"] rfl (by decide)

/-- C4: whenever the first completion response's stop signal is not
tool-use, or no tool executor was supplied, `generate_response` makes
exactly one completion call, executes no tool, and returns the text of the
first text block found in the response content (empty string if none
exists, via `firstTextOrEmpty`). -/
theorem C4_direct_answer_single_call (client : Client) (model query : String)
    (history : Option String) (tools : Option (List ToolDef)) (tm : Option ToolExec)
    (r0 : Response)
    (h0 : ∀ cs : List ApiCall, cs.length = 1 → client cs = .ok r0)
    (hcond : r0.stop_reason ≠ "tool_use" ∨ tm = none) :
    (generate_response client model query history tools tm).1 =
      .ok (firstTextOrEmpty r0.content) ∧
    (generate_response client model query history tools tm).2.calls.length = 1 ∧
    (generate_response client model query history tools tm).2.execs = [] := by
  simp only [generate_response]
  rw [makeCall_of_ok (h0 _ (by simp))]
  dsimp only
  cases tm with
  | none => exact ⟨rfl, rfl, rfl⟩
  | some tmgr =>
    dsimp only
    rcases hcond with hstop | hnone
    · rw [if_neg hstop]
      exact ⟨rfl, rfl, rfl⟩
    · exact absurd hnone (by simp)

/-- C4 witness: a concrete direct-answer run returns the first text
block's text, makes one call and executes no tool. -/
theorem C4_witness :
    (generate_response clientDirect "m" "q" none none none).1 = .ok "hi" ∧
    (generate_response clientDirect "m" "q" none none none).2.calls.length = 1 ∧
    (generate_response clientDirect "m" "q" none none none).2.execs = [] :=
  C4_direct_answer_single_call clientDirect "m" "q" none none none
    ⟨[.text "hi"], "end_turn"⟩ (fun _ _ => rfl) (Or.inr rfl)

/-- Shared helper: with no backend error and zero matches, the search tool
returns the qualified no-content message. -/
theorem execute_empty_msg (store : VectorStore) (q : String)
    (cn : Option String) (ln : Option Nat)
    (herr : (store.search q cn ln).error = none)
    (hdoc : (store.search q cn ln).documents = []) :
    (CourseSearchTool.execute store q cn ln).1 = noContentMsg cn ln := by
  simp only [CourseSearchTool.execute, herr, hdoc]
  rfl

/-- C9: when the backend returns an empty result with no error,
`SearchTool.execute` returns exactly `"No relevant content found."` with
no filters; a string containing `"No relevant content found"` and
`"in course 'X'"` when `course_name = X` was supplied; and a string
containing `"in lesson n"` when `lesson_number = n` was supplied
(containment stated as explicit string decompositions). -/
theorem C9_no_content_messages (store : VectorStore) (q : String) :
    ((store.search q none none).error = none → (store.search q none none).documents = [] →
      (CourseSearchTool.execute store q none none).1 = "No relevant content found.") ∧
    (∀ X : String, (store.search q (some X) none).error = none →
      (store.search q (some X) none).documents = [] →
      ∃ a b c d : String,
        (CourseSearchTool.execute store q (some X) none).1 =
          a ++ "No relevant content found" ++ b ∧
        (CourseSearchTool.execute store q (some X) none).1 =
          c ++ ("in course \x27" ++ X ++ "\x27") ++ d) ∧
    (∀ n : Nat, (store.search q none (some n)).error = none →
      (store.search q none (some n)).documents = [] →
      ∃ a b : String,
        (CourseSearchTool.execute store q none (some n)).1 =
          a ++ ("in lesson " ++ toString n) ++ b) := by
  refine ⟨?_, ?_, ?_⟩
  · intro herr hdoc
    rw [execute_empty_msg store q none none herr hdoc]
    rfl
  · intro X herr hdoc
    rw [execute_empty_msg store q (some X) none herr hdoc]
    refine ⟨"", " in course \x27" ++ X ++ "\x27" ++ ".",
      "No relevant content found" ++ " ", ".", ?_, ?_⟩
    · simp [noContentMsg, String.append_assoc, String.append_empty, String.empty_append]
    · simp only [noContentMsg, String.append_empty,
        show (" in course \x27" : String) = " " ++ "in course \x27" from rfl,
        String.append_assoc]
  · intro n herr hdoc
    rw [execute_empty_msg store q none (some n) herr hdoc]
    refine ⟨"No relevant content found" ++ " ", ".", ?_⟩
    simp only [noContentMsg, String.append_empty,
      show (" in lesson " : String) = " " ++ "in lesson " from rfl,
      String.append_assoc]

/-- C9 witness: the three message shapes on a concrete empty-result
backend, instantiated with course `Some Course` and lesson 5. -/
theorem C9_witness :
    (CourseSearchTool.execute storeEmptyRes "t" none none).1 = "No relevant content found." ∧
    (∃ a b c d : String,
      (CourseSearchTool.execute storeEmptyRes "t" (some "Some Course") none).1 =
        a ++ "No relevant content found" ++ b ∧
      (CourseSearchTool.execute storeEmptyRes "t" (some "Some Course") none).1 =
        c ++ ("in course \x27" ++ "Some Course" ++ "\x27") ++ d) ∧
    (∃ a b : String,
      (CourseSearchTool.execute storeEmptyRes "t" none (some 5)).1 =
        a ++ ("in lesson " ++ toString 5) ++ b) :=
  ⟨(C9_no_content_messages storeEmptyRes "t").1 rfl rfl,
   (C9_no_content_messages storeEmptyRes "t").2.1 "Some Course" rfl rfl,
   (C9_no_content_messages storeEmptyRes "t").2.2 5 rfl rfl⟩

/-- C7: for every successful backend result list, the search tool records
one source per composite text key (`"<course> - Lesson <n>"`, or the bare
course title), keeping only the first occurrence of each key, in backend
order — the recorded texts are exactly the first-occurrence deduplication
of the per-result keys, independently of link values. -/
theorem C7_search_source_dedup (store : VectorStore) (q : String)
    (cn : Option String) (ln : Option Nat)
    (herr : (store.search q cn ln).error = none) :
    ((CourseSearchTool.execute store q cn ln).2).map Source.text =
      firstSeen (((store.search q cn ln).documents.zip (store.search q cn ln).metadata).map
        fun p => sourceKey p.2) := by
  simp only [CourseSearchTool.execute, herr]
  by_cases hdoc : (store.search q cn ln).documents.isEmpty
  · rw [if_pos hdoc]
    rw [List.isEmpty_iff.mp hdoc]
    simp [firstSeen]
  · rw [if_neg hdoc]
    dsimp only
    rw [searchLoop_snd]
    simp

/-- C7 witness: three documents all tagged `Test Course` lesson 1 yield
exactly one recorded source, text `"Test Course - Lesson 1"`. -/
theorem C7_witness :
    ((CourseSearchTool.execute storeThreeSame "test query" none none).2).map Source.text =
      firstSeen ["Test Course - Lesson 1", "Test Course - Lesson 1",
        "Test Course - Lesson 1"] ∧
    (CourseSearchTool.execute storeThreeSame "test query" none none).2 =
      [⟨"Test Course - Lesson 1", some "http://example.com/lesson1"⟩] :=
  ⟨C7_search_source_dedup storeThreeSame "test query" none none rfl, rfl⟩

/-- C8: for every successfully resolved outline, the outline tool records
the course-level link first (when present) and then the lesson links,
deduplicated by link value: the number of recorded citations equals the
number of distinct link values among the course link and the lesson
links. -/
theorem C8_outline_citation_count (store : VectorStore) (cn : String) (o : CourseOutline)
    (ho : store.get_course_outline cn = some o) :
    ((CourseOutlineTool.execute store cn).2).length = (linkValues o).toFinset.card ∧
    (∀ l, o.course_link = some l →
      ((CourseOutlineTool.execute store cn).2).head? =
        some ⟨o.course_title, some l⟩) := by
  constructor
  · have hlen : ((CourseOutlineTool.execute store cn).2).length =
        (((CourseOutlineTool.execute store cn).2).map Source.link).length := by
      rw [List.length_map]
    rw [hlen]
    simp only [CourseOutlineTool.execute, ho]
    cases hcl : o.course_link with
    | none =>
      rw [outlineLoop_links]
      simp [linkValues, hcl, length_firstSeen]
    | some cl =>
      rw [outlineLoop_links]
      have hfilter : (o.lessons.filterMap LessonInfo.lesson_link).filter
            (fun l => decide (some l ∉
              (([⟨o.course_title, some cl⟩] : List Source)).map Source.link)) =
          (o.lessons.filterMap LessonInfo.lesson_link).filter (fun l => decide (l ≠ cl)) := by
        apply List.filter_congr
        intro a _
        by_cases h : a = cl
        · simp [h]
        · simp [h]
      rw [hfilter]
      have herase : ((o.lessons.filterMap LessonInfo.lesson_link).filter
            (fun l => decide (l ≠ cl))).toFinset =
          (o.lessons.filterMap LessonInfo.lesson_link).toFinset.erase cl := by
        ext x
        simp only [List.mem_toFinset, List.mem_filter, Finset.mem_erase, decide_eq_true_eq]
        exact ⟨fun h => ⟨h.2, h.1⟩, fun h => ⟨h.2, h.1⟩⟩
      have hlinkvals : linkValues o = cl :: o.lessons.filterMap LessonInfo.lesson_link := by
        simp [linkValues, hcl]
      rw [hlinkvals]
      simp only [List.length_append, List.length_map, List.map_cons, List.map_nil,
        List.length_cons, List.length_nil, length_firstSeen, herase, List.toFinset_cons]
      by_cases hmem : cl ∈ (o.lessons.filterMap LessonInfo.lesson_link).toFinset
      · rw [Finset.card_erase_of_mem hmem, Finset.insert_eq_self.mpr hmem]
        have hpos : 0 < (o.lessons.filterMap LessonInfo.lesson_link).toFinset.card :=
          Finset.card_pos.mpr ⟨cl, hmem⟩
        omega
      · rw [Finset.erase_eq_of_not_mem hmem, Finset.card_insert_of_not_mem hmem]
        omega
  · intro l hl
    simp only [CourseOutlineTool.execute, ho, hl]
    obtain ⟨tail, htail⟩ := outlineLoop_prefix o.lessons [⟨o.course_title, some l⟩]
    rw [htail]
    rfl

/-- C8 witness: the concrete outline with a course link and three lessons,
two sharing a link, records exactly three citations (course link first). -/
theorem C8_witness :
    ((CourseOutlineTool.execute storeOutline "Test Course").2).length =
      (linkValues outlineDupLinks).toFinset.card ∧
    (CourseOutlineTool.execute storeOutline "Test Course").2 =
      [⟨"Test Course", some "http://example.com/course"⟩,
       ⟨"Lesson 1: Introduction", some "http://example.com/lesson1"⟩,
       ⟨"Lesson 2: Basics", some "http://example.com/lesson2"⟩] :=
  ⟨(C8_outline_citation_count storeOutline "Test Course" outlineDupLinks rfl).1, rfl⟩

/-- C1 counterexample: with a completion service whose response to the
forced tools-disabled call still signals tool-use, the orchestrator does
**not** ignore those requests: a third tool execution (the `Z` query of the
post-budget response) is performed (`ai_generator.py` lines 225–246), a
fourth completion call is made, and its text — not the forced call's — is
returned. This refutes "any tool-use requests still present once the round
budget is spent are ignored — no tool is executed for them". -/
theorem C1_counterexample_post_budget_tool_executed :
    (generate_response clientThreeToolUse "m" "q" none (some ["search_course_content"])
        (some tmAlwaysOk)).2.execs =
      [("search_course_content", [("query", "X")]),
       ("search_course_content", [("query", "Y")]),
       ("search_course_content", [("query", "Z")])] ∧
    (generate_response clientThreeToolUse "m" "q" none (some ["search_course_content"])
        (some tmAlwaysOk)).2.calls.length = 4 ∧
    (generate_response clientThreeToolUse "m" "q" none (some ["search_course_content"])
        (some tmAlwaysOk)).1 = .ok "final answer" :=
  ⟨rfl, rfl, rfl⟩

/-- C1 amended: after the last allowed round's tool results have been fed
back, the next completion call is made with tools disabled; if that
response still signals tool-use, its requests are **not** ignored — the
requested tools are executed once more (fail-soft), their results
appended, and one further tools-disabled completion call supplies the
returned text. -/
theorem C1_post_budget_requests_executed (client : Client)
    (f : String → ToolInput → String) (model query : String)
    (history : Option String) (tools : Option (List ToolDef)) (r0 r1 r2 r3 : Response)
    (h0 : ∀ cs : List ApiCall, cs.length = 1 → client cs = .ok r0)
    (h1 : ∀ cs : List ApiCall, cs.length = 2 → client cs = .ok r1)
    (h2 : ∀ cs : List ApiCall, cs.length = 3 → client cs = .ok r2)
    (h3 : ∀ cs : List ApiCall, cs.length = 4 → client cs = .ok r3)
    (hs0 : r0.stop_reason = "tool_use") (hs1 : r1.stop_reason = "tool_use")
    (hs2 : r2.stop_reason = "tool_use") :
    ((generate_response client model query history tools
        (some (tmOf f))).2.calls.getD 2 cDefault).tools = none ∧
    ((generate_response client model query history tools
        (some (tmOf f))).2.calls.getD 3 cDefault).tools = none ∧
    (generate_response client model query history tools (some (tmOf f))).2.execs =
      toolCallsOf r0.content ++ toolCallsOf r1.content ++ toolCallsOf r2.content ∧
    (generate_response client model query history tools (some (tmOf f))).1 =
      contentFirstText r3 := by
  simp only [generate_response]
  rw [makeCall_of_ok (h0 _ (by simp))]
  dsimp only
  rw [hs0, if_pos rfl]
  simp only [loopRounds, runBlocksFailFast_tmOf_failed, Bool.false_eq_true, if_false,
    runBlocksFailFast_tmOf_attempts, runBlocksAll_attempts,
    show ((1 : Nat) == 0) = false from rfl, show ((0 : Nat) == 0) = true from rfl,
    if_true]
  rw [makeCall_of_ok (h1 _ (by simp))]
  dsimp only
  rw [hs1, if_neg (by simp)]
  rw [makeCall_of_ok (h2 _ (by simp))]
  dsimp only
  rw [hs2, if_neg (by simp)]
  rw [makeCall_of_ok (h3 _ (by simp))]
  dsimp only
  refine ⟨?_, ?_, ?_, ?_⟩
  · simp [mkCall]
  · simp [mkCall]
  · simp
  · rfl

/-- C1 witness: the amended behaviour on the concrete three-tool-use
service — post-budget requests executed and the fourth call's text
returned. -/
theorem C1_witness :
    ((generate_response clientThreeToolUse "m" "q" none (some ["search_course_content"])
        (some (tmOf fun _ _ => "result"))).2.calls.getD 2 cDefault).tools = none ∧
    ((generate_response clientThreeToolUse "m" "q" none (some ["search_course_content"])
        (some (tmOf fun _ _ => "result"))).2.calls.getD 3 cDefault).tools = none ∧
    (generate_response clientThreeToolUse "m" "q" none (some ["search_course_content"])
        (some (tmOf fun _ _ => "result"))).2.execs =
      toolCallsOf [ContentBlock.toolUse "search_course_content" "t1" [("query", "X")]] ++
      toolCallsOf [ContentBlock.toolUse "search_course_content" "t2" [("query", "Y")]] ++
      toolCallsOf [ContentBlock.toolUse "search_course_content" "t3" [("query", "Z")]] ∧
    (generate_response clientThreeToolUse "m" "q" none (some ["search_course_content"])
        (some (tmOf fun _ _ => "result"))).1 =
      contentFirstText ⟨[.text "final answer"], "end_turn"⟩ :=
  C1_post_budget_requests_executed clientThreeToolUse (fun _ _ => "result") "m" "q" none
    (some ["search_course_content"])
    ⟨[.toolUse "search_course_content" "t1" [("query", "X")]], "tool_use"⟩
    ⟨[.toolUse "search_course_content" "t2" [("query", "Y")]], "tool_use"⟩
    ⟨[.toolUse "search_course_content" "t3" [("query", "Z")]], "tool_use"⟩
    ⟨[.text "final answer"], "end_turn"⟩
    (fun cs h => by simp [clientThreeToolUse, h])
    (fun cs h => by simp [clientThreeToolUse, h])
    (fun cs h => by simp [clientThreeToolUse, h])
    (fun cs h => by simp [clientThreeToolUse, h])
    rfl rfl rfl

/-- C3 counterexample: in the forced post-budget execution batch
(`ai_generator.py` lines 227–246) there is no `break`: after `bad_tool`
raises, the following tool-use block (`query C`) is still executed. This
refutes "no further tool-use blocks in that round are executed" for that
batch. -/
theorem C3_counterexample_post_budget_no_failfast :
    (generate_response clientLateFailure "m" "q" none (some ["search_course_content"])
        (some tmFailBad)).2.execs =
      [("search_course_content", [("query", "A")]),
       ("search_course_content", [("query", "B")]),
       ("bad_tool", []),
       ("search_course_content", [("query", "C")])] ∧
    (generate_response clientLateFailure "m" "q" none (some ["search_course_content"])
        (some tmFailBad)).2.calls.length = 4 :=
  ⟨rfl, rfl⟩

/-- C3 amended: for every **budgeted** round (round 1 or round 2) in which
executing a tool-use block fails, the failure is converted into a
`ToolResult` with `is_error = true` carrying the message
`"Tool execution failed: <exception>"`, no further tool-use blocks of that
round are executed, and exactly one additional tools-disabled completion
call is made before a string is returned. (In the forced post-budget
batch, failures are likewise captured as error results but the remaining
blocks still execute — see the counterexample.) -/
theorem C3_budgeted_round_failfast :
    (∀ (client : Client) (tm : ToolExec) (model query : String) (history : Option String)
        (tools : Option (List ToolDef)) (r0 r1 : Response)
        (pre rest : List ContentBlock) (nm tid : String) (inp : ToolInput) (e : String),
      (∀ cs : List ApiCall, cs.length = 1 → client cs = .ok r0) →
      (∀ cs : List ApiCall, cs.length = 2 → client cs = .ok r1) →
      r0.stop_reason = "tool_use" →
      r0.content = pre ++ ContentBlock.toolUse nm tid inp :: rest →
      (runBlocksFailFast tm pre).failed = false →
      tm nm inp = .error e →
      (runBlocksFailFast tm r0.content).results =
          (runBlocksFailFast tm pre).results ++
            [⟨tid, "Tool execution failed: " ++ e, true⟩] ∧
      (generate_response client model query history tools (some tm)).2.execs =
          (runBlocksFailFast tm pre).attempts ++ [(nm, inp)] ∧
      (generate_response client model query history tools (some tm)).2.calls.length = 2 ∧
      ((generate_response client model query history tools
          (some tm)).2.calls.getD 1 cDefault).tools = none ∧
      (generate_response client model query history tools (some tm)).1 =
          contentFirstText r1) ∧
    (∀ (client : Client) (tm : ToolExec) (model query : String) (history : Option String)
        (tools : Option (List ToolDef)) (r0 r1 r2 : Response)
        (pre rest : List ContentBlock) (nm tid : String) (inp : ToolInput) (e : String),
      (∀ cs : List ApiCall, cs.length = 1 → client cs = .ok r0) →
      (∀ cs : List ApiCall, cs.length = 2 → client cs = .ok r1) →
      (∀ cs : List ApiCall, cs.length = 3 → client cs = .ok r2) →
      r0.stop_reason = "tool_use" →
      (runBlocksFailFast tm r0.content).failed = false →
      r1.stop_reason = "tool_use" →
      r1.content = pre ++ ContentBlock.toolUse nm tid inp :: rest →
      (runBlocksFailFast tm pre).failed = false →
      tm nm inp = .error e →
      (generate_response client model query history tools (some tm)).2.execs =
          (runBlocksFailFast tm r0.content).attempts ++
            ((runBlocksFailFast tm pre).attempts ++ [(nm, inp)]) ∧
      (generate_response client model query history tools (some tm)).2.calls.length = 3 ∧
      ((generate_response client model query history tools
          (some tm)).2.calls.getD 2 cDefault).tools = none ∧
      (generate_response client model query history tools (some tm)).1 =
          contentFirstText r2) := by
  constructor
  · intro client tm model query history tools r0 r1 pre rest nm tid inp e
      h0 h1 hs0 hc hpre he
    have hrb := @runBlocksFailFast_append tm pre hpre nm tid inp e he rest
    refine ⟨by rw [hc, hrb], ?_⟩
    simp only [generate_response]
    rw [makeCall_of_ok (h0 _ (by simp))]
    dsimp only
    rw [hs0, if_pos rfl]
    simp only [loopRounds]
    rw [hc, hrb]
    dsimp only
    rw [if_pos rfl]
    rw [makeCall_of_ok (h1 _ (by simp))]
    dsimp only
    refine ⟨by simp, rfl, by simp [mkCall], rfl⟩
  · intro client tm model query history tools r0 r1 r2 pre rest nm tid inp e
      h0 h1 h2 hs0 hok0 hs1 hc hpre he
    have hrb := @runBlocksFailFast_append tm pre hpre nm tid inp e he rest
    simp only [generate_response]
    rw [makeCall_of_ok (h0 _ (by simp))]
    dsimp only
    rw [hs0, if_pos rfl]
    simp only [loopRounds, hok0, Bool.false_eq_true, if_false,
      show ((1 : Nat) == 0) = false from rfl, show ((0 : Nat) == 0) = true from rfl,
      if_true]
    rw [makeCall_of_ok (h1 _ (by simp))]
    dsimp only
    rw [hs1, if_neg (by simp)]
    rw [hc, hrb]
    dsimp only
    rw [if_pos rfl]
    rw [makeCall_of_ok (h2 _ (by simp))]
    dsimp only
    refine ⟨by simp, rfl, by simp [mkCall], rfl⟩

/-- C3 witness: round-1 fail-fast on a concrete run — `bad_tool` raises,
the third requested block is never executed, and exactly one additional
tools-disabled call supplies the returned string. -/
theorem C3_witness :
    (runBlocksFailFast tmFailBad
        [ContentBlock.toolUse "tool_ok" "t1" [("query", "A")],
         ContentBlock.toolUse "bad_tool" "t2" [],
         ContentBlock.toolUse "tool_ok" "t3" [("query", "B")]]).results =
      (runBlocksFailFast tmFailBad [ContentBlock.toolUse "tool_ok" "t1" [("query", "A")]]).results ++
        [⟨"t2", "Tool execution failed: " ++ "boom", true⟩] ∧
    (generate_response clientRoundFail "m" "q" none (some ["search_course_content"])
        (some tmFailBad)).2.execs =
      (runBlocksFailFast tmFailBad [ContentBlock.toolUse "tool_ok" "t1" [("query", "A")]]).attempts ++
        [("bad_tool", [])] ∧
    (generate_response clientRoundFail "m" "q" none (some ["search_course_content"])
        (some tmFailBad)).2.calls.length = 2 ∧
    ((generate_response clientRoundFail "m" "q" none (some ["search_course_content"])
        (some tmFailBad)).2.calls.getD 1 cDefault).tools = none ∧
    (generate_response clientRoundFail "m" "q" none (some ["search_course_content"])
        (some tmFailBad)).1 = contentFirstText ⟨[.text "error noticed"], "end_turn"⟩ :=
  C3_budgeted_round_failfast.1 clientRoundFail tmFailBad "m" "q" none
    (some ["search_course_content"])
    ⟨[.toolUse "tool_ok" "t1" [("query", "A")], .toolUse "bad_tool" "t2" [],
      .toolUse "tool_ok" "t3" [("query", "B")]], "tool_use"⟩
    ⟨[.text "error noticed"], "end_turn"⟩
    [.toolUse "tool_ok" "t1" [("query", "A")]]
    [.toolUse "tool_ok" "t3" [("query", "B")]]
    "bad_tool" "t2" [] "boom"
    (fun cs h => by simp [clientRoundFail, h])
    (fun cs h => by simp [clientRoundFail, h])
    rfl rfl rfl rfl

/-- A successful `makeCall` reflects a successful client response. -/
theorem makeCall_fst_eq_ok {client : Client} {st : RunState} {c : ApiCall} {r : Response}
    (h : (makeCall client st c).1 = .ok r) : client (st.calls ++ [c]) = .ok r := by
  unfold makeCall at h
  split at h
  · exact absurd h (by simp)
  · rename_i r2 heq
    dsimp only at h
    rw [Except.ok.injEq] at h
    rw [← h]
    exact heq

/-- A failed `makeCall` is exactly a transport failure of the client. -/
theorem makeCall_fst_eq_error {client : Client} {st : RunState} {c : ApiCall} {pe : PyError}
    (h : (makeCall client st c).1 = .error pe) :
    ∃ m, client (st.calls ++ [c]) = .error m ∧ pe = .transport m := by
  unfold makeCall at h
  split at h
  · rename_i m heq
    dsimp only at h
    rw [Except.error.injEq] at h
    exact ⟨m, heq, h.symm⟩
  · exact absurd h (by simp)

/-- When every client response's content starts with a text block, the only
errors the round loop can produce are transport errors. -/
theorem loopRounds_error_transport (client : Client) (tm : ToolExec)
    (bt : Option (List ToolDef)) (model sys : String)
    (htext : ∀ (cs : List ApiCall) (r : Response), client cs = .ok r →
      ∃ t rest, r.content = ContentBlock.text t :: rest) :
    ∀ (fuel : Nat) (msgs : List Message) (cur : Response) (st : RunState) (pe : PyError),
      (loopRounds client tm bt model sys fuel msgs cur st).1 = .error pe →
      ∃ m, pe = PyError.transport m := by
  intro fuel
  induction fuel with
  | zero =>
    intro msgs cur st pe hpe
    simp [loopRounds] at hpe
  | succ fuel ih =>
    intro msgs cur st pe hpe
    simp only [loopRounds] at hpe
    split at hpe
    · split at hpe
      · rename_i pe2 heq
        dsimp only at hpe
        rw [Except.error.injEq] at hpe
        obtain ⟨m, _, hm⟩ := makeCall_fst_eq_error heq
        exact ⟨m, by rw [← hpe, hm]⟩
      · rename_i r heq
        dsimp only at hpe
        obtain ⟨t, rest2, hcont⟩ := htext _ _ (makeCall_fst_eq_ok heq)
        simp only [contentFirstText, hcont] at hpe
        exact absurd hpe (by simp)
    · split at hpe
      · rename_i pe2 heq
        dsimp only at hpe
        rw [Except.error.injEq] at hpe
        obtain ⟨m, _, hm⟩ := makeCall_fst_eq_error heq
        exact ⟨m, by rw [← hpe, hm]⟩
      · rename_i r heq
        split at hpe
        · dsimp only at hpe
          obtain ⟨t, rest2, hcont⟩ := htext _ _ (makeCall_fst_eq_ok heq)
          simp only [contentFirstText, hcont] at hpe
          exact absurd hpe (by simp)
        · split at hpe
          · split at hpe
            · rename_i pe2 heq2
              dsimp only at hpe
              rw [Except.error.injEq] at hpe
              obtain ⟨m, _, hm⟩ := makeCall_fst_eq_error heq2
              exact ⟨m, by rw [← hpe, hm]⟩
            · rename_i r2 heq2
              dsimp only at hpe
              obtain ⟨t, rest2, hcont⟩ := htext _ _ (makeCall_fst_eq_ok heq2)
              simp only [contentFirstText, hcont] at hpe
              exact absurd hpe (by simp)
          · exact ih _ _ _ _ hpe

/-- C5 counterexample: when the finalization response's content is empty,
`generate_response` raises (the `IndexError` of `content[0]` at
`ai_generator.py` line 214) even though the completion service itself
raised nothing — refuting "the only exceptions that propagate to the
caller are those raised by the completion-service call itself". -/
theorem C5_counterexample_empty_finalization_raises :
    (generate_response clientEmptyFinal "m" "q" none (some ["search_course_content"])
        (some tmAlwaysOk)).1 = .error .indexError ∧
    PyError.indexError ≠ PyError.transport "boom" :=
  ⟨rfl, by decide⟩

/-- C5 amended: `generate_response` returns a string for every shape of
completion-service response **whose content begins with a text block**;
under that proviso the only errors that propagate are transport errors
raised by the completion-service call itself. (Without it, a finalization
response with empty content raises an `IndexError`, and one starting with
a tool-use block raises an `AttributeError` — see the counterexample.) -/
theorem C5_only_transport_errors_escape (client : Client) (model query : String)
    (history : Option String) (tools : Option (List ToolDef)) (tm : Option ToolExec)
    (htext : ∀ (cs : List ApiCall) (r : Response), client cs = .ok r →
      ∃ t rest, r.content = ContentBlock.text t :: rest) :
    ∀ pe, (generate_response client model query history tools tm).1 = .error pe →
      ∃ m, pe = PyError.transport m := by
  intro pe hpe
  simp only [generate_response] at hpe
  split at hpe
  · rename_i pe2 heq
    dsimp only at hpe
    rw [Except.error.injEq] at hpe
    obtain ⟨m, _, hm⟩ := makeCall_fst_eq_error heq
    exact ⟨m, by rw [← hpe, hm]⟩
  · rename_i r0 heq
    split at hpe
    · split at hpe
      · exact loopRounds_error_transport client _ _ model _ htext 2 _ _ _ pe hpe
      · simp at hpe
    · simp at hpe

/-- C5 witness: on a service that raises a transport error, the propagated
exception is exactly that transport error. -/
theorem C5_witness :
    ∃ m, PyError.transport "boom" = PyError.transport m :=
  C5_only_transport_errors_escape clientBoom "m" "q" none none none
    (fun cs r h => by simp [clientBoom] at h)
    (PyError.transport "boom") rfl

/-- C2 counterexample: with a completion service that still signals
tool-use on the forced tools-disabled call, three tools are executed while
rounds 1 and 2 contain only one tool-use block each — the claimed bound
`executions ≤ blocks(round 1) + blocks(round 2)` fails. -/
theorem C2_counterexample_three_executions :
    (generate_response clientThreeToolUse "m2" "q" none (some ["search_course_content"])
        (some tmAlwaysOk)).2.execs.length = 3 ∧
    toolUseCount ((generate_response clientThreeToolUse "m2" "q" none
        (some ["search_course_content"]) (some tmAlwaysOk)).2.resps.getD 0 rDefault).content = 1 ∧
    toolUseCount ((generate_response clientThreeToolUse "m2" "q" none
        (some ["search_course_content"]) (some tmAlwaysOk)).2.resps.getD 1 rDefault).content = 1 ∧
    ¬ ((generate_response clientThreeToolUse "m2" "q" none (some ["search_course_content"])
        (some tmAlwaysOk)).2.execs.length ≤
      toolUseCount ((generate_response clientThreeToolUse "m2" "q" none
        (some ["search_course_content"]) (some tmAlwaysOk)).2.resps.getD 0 rDefault).content +
      toolUseCount ((generate_response clientThreeToolUse "m2" "q" none
        (some ["search_course_content"]) (some tmAlwaysOk)).2.resps.getD 1 rDefault).content) :=
  ⟨rfl, rfl, rfl, by decide⟩

set_option maxHeartbeats 1000000 in
/-- C2 amended: provided the completion service never signals tool-use in
response to a call made without tools (the real API cannot), the total
number of tool executions in a `generate_response` run is at most the sum
of the tool-use blocks of the round-1 and round-2 responses. (Without the
proviso, the forced tools-disabled call's response can still request
tools, and those are executed as a third batch — see the
counterexample.) -/
theorem C2_executions_bounded_by_budgeted_rounds (client : Client) (model query : String)
    (history : Option String) (tools : Option (List ToolDef)) (tm : Option ToolExec)
    (hno : ∀ (cs : List ApiCall) (c : ApiCall) (r : Response), c.tools = none →
      client (cs ++ [c]) = .ok r → r.stop_reason ≠ "tool_use") :
    (generate_response client model query history tools tm).2.execs.length ≤
      toolUseCount ((generate_response client model query history tools
        tm).2.resps.getD 0 rDefault).content +
      toolUseCount ((generate_response client model query history tools
        tm).2.resps.getD 1 rDefault).content := by
  simp only [generate_response]
  split
  · rename_i pe heq
    dsimp only
    obtain ⟨m, hm, _⟩ := makeCall_fst_eq_error heq
    rw [makeCall_of_error hm]
    dsimp only
    simp only [List.length_nil]
    omega
  · rename_i r0 heq
    have hcl0 := makeCall_fst_eq_ok heq
    rw [makeCall_of_ok hcl0]
    dsimp only
    cases tm with
    | none =>
      dsimp only
      simp only [List.length_nil]
      omega
    | some tmgr =>
      dsimp only
      split
      · rename_i hstop0
        have h1 := runBlocksFailFast_attempts_length tmgr r0.content
        simp only [loopRounds,
          show ((1 : Nat) == 0) = false from rfl, show ((0 : Nat) == 0) = true from rfl,
          Bool.false_eq_true, if_false, if_true]
        split
        · -- round-1 tool failure
          split
          · rename_i pe heq1
            dsimp only
            obtain ⟨m, hm, _⟩ := makeCall_fst_eq_error heq1
            rw [makeCall_of_error hm]
            dsimp only
            simp only [List.nil_append, List.cons_append, List.singleton_append,
                    List.getD_cons_zero, List.getD_cons_succ, List.getD_nil,
                    List.length_append, List.length_nil]
            omega
          · rename_i r1 heq1
            dsimp only
            rw [makeCall_of_ok (makeCall_fst_eq_ok heq1)]
            dsimp only
            simp only [List.nil_append, List.cons_append, List.singleton_append,
                    List.getD_cons_zero, List.getD_cons_succ, List.getD_nil,
                    List.length_append, List.length_nil]
            omega
        · -- round 1 succeeded
          split
          · rename_i pe heq1
            dsimp only
            obtain ⟨m, hm, _⟩ := makeCall_fst_eq_error heq1
            rw [makeCall_of_error hm]
            dsimp only
            simp only [List.nil_append, List.cons_append, List.singleton_append,
                    List.getD_cons_zero, List.getD_cons_succ, List.getD_nil,
                    List.length_append, List.length_nil]
            omega
          · rename_i r1 heq1
            have hcl1 := makeCall_fst_eq_ok heq1
            rw [makeCall_of_ok hcl1]
            dsimp only
            have h2 := runBlocksFailFast_attempts_length tmgr r1.content
            split
            · -- round-2 response answers directly
              dsimp only
              simp only [List.nil_append, List.cons_append, List.singleton_append,
                    List.getD_cons_zero, List.getD_cons_succ, List.getD_nil,
                    List.length_append, List.length_nil]
              omega
            · -- round-2 response requests tools: round 2 executes
              split
              · -- round-2 tool failure
                split
                · rename_i pe heq2
                  dsimp only
                  obtain ⟨m, hm, _⟩ := makeCall_fst_eq_error heq2
                  rw [makeCall_of_error hm]
                  dsimp only
                  simp only [List.nil_append, List.cons_append, List.singleton_append,
                    List.getD_cons_zero, List.getD_cons_succ, List.getD_nil,
                    List.length_append, List.length_nil]
                  omega
                · rename_i r2 heq2
                  dsimp only
                  rw [makeCall_of_ok (makeCall_fst_eq_ok heq2)]
                  dsimp only
                  simp only [List.nil_append, List.cons_append, List.singleton_append,
                    List.getD_cons_zero, List.getD_cons_succ, List.getD_nil,
                    List.length_append, List.length_nil]
                  omega
              · -- round 2 succeeded; forced tools-disabled call
                split
                · rename_i pe heq2
                  dsimp only
                  obtain ⟨m, hm, _⟩ := makeCall_fst_eq_error heq2
                  rw [makeCall_of_error hm]
                  dsimp only
                  simp only [List.nil_append, List.cons_append, List.singleton_append,
                    List.getD_cons_zero, List.getD_cons_succ, List.getD_nil,
                    List.length_append, List.length_nil]
                  omega
                · rename_i r2 heq2
                  have hcl2 := makeCall_fst_eq_ok heq2
                  rw [makeCall_of_ok hcl2]
                  dsimp only
                  split
                  · -- forced response answers directly
                    dsimp only
                    simp only [List.nil_append, List.cons_append, List.singleton_append,
                    List.getD_cons_zero, List.getD_cons_succ, List.getD_nil,
                    List.length_append, List.length_nil]
                    omega
                  · -- forced response still requests tools: impossible under hno
                    rename_i hstop2
                    exact absurd (not_not.mp hstop2)
                      (hno _ _ r2 (by simp [mkCall]) hcl2)
      · dsimp only
        simp only [List.length_nil]
        omega

/-- C2 witness: on a well-behaved service that answers directly, the
execution count satisfies the bound. -/
theorem C2_witness :
    (generate_response clientDirect "m" "q" none (some ["search_course_content"])
        (some tmAlwaysOk)).2.execs.length ≤
      toolUseCount ((generate_response clientDirect "m" "q" none
        (some ["search_course_content"]) (some tmAlwaysOk)).2.resps.getD 0 rDefault).content +
      toolUseCount ((generate_response clientDirect "m" "q" none
        (some ["search_course_content"]) (some tmAlwaysOk)).2.resps.getD 1 rDefault).content :=
  C2_executions_bounded_by_budgeted_rounds clientDirect "m" "q" none
    (some ["search_course_content"]) (some tmAlwaysOk)
    (fun cs c r _ h => by
      simp only [clientDirect, Except.ok.injEq] at h
      rw [← h]
      decide)

end RagChatbot

